import Mathlib

/-!
Verification of the terminal session protocol engine of the `edit` editor
(`src/bin/edit/main.rs`): capability negotiation (OSC color replies, CPR
width detection), the clipboard size-gating policy, title updates, and the
OSC 52 clipboard broadcast.  Rust strings are embedded as `List Char`
(Rust `char` iteration), byte buffers as `List Nat`, machine integers as
`Nat`/`Int` (all arithmetic involved stays far below any overflow
boundary: accumulated RGB values are below 2^32 by construction).
-/

namespace Edit

/-! ## String splitting primitives (Rust `str::split` / `str::split_terminator`) -/

/-- Rust `str::split(c)` on a char list: splits at every occurrence of `sep`;
always returns at least one (possibly empty) piece. -/
def splitCh (sep : Char) : List Char → List (List Char)
  | [] => [[]]
  | x :: xs =>
    let r := splitCh sep xs
    if x = sep then [] :: r else (x :: r.headD []) :: r.tail

/-- Rust `str::split_terminator(c)`: like `split`, but the final piece is
omitted when it is empty (a trailing separator does not produce an empty
piece, and the empty string produces no pieces). -/
def split_terminator (sep : Char) (s : List Char) : List (List Char) :=
  let parts := splitCh sep s
  if parts.getLastD [] = [] then parts.dropLast else parts

/-! ## Numeric parsing (Rust `str::parse::<usize>` and `usize::from_str_radix(_, 16)`) -/

/-- Rust `char::to_digit(10)`. -/
def decimal_digit_value (c : Char) : Option Nat :=
  if 48 ≤ c.toNat ∧ c.toNat ≤ 57 then some (c.toNat - 48) else none

/-- Rust `char::to_digit(16)`. -/
def hex_digit_value (c : Char) : Option Nat :=
  if 48 ≤ c.toNat ∧ c.toNat ≤ 57 then some (c.toNat - 48)
  else if 97 ≤ c.toNat ∧ c.toNat ≤ 102 then some (c.toNat - 87)
  else if 65 ≤ c.toNat ∧ c.toNat ≤ 70 then some (c.toNat - 55)
  else none

/-- The sign handling of Rust's unsigned `from_str` / `from_str_radix`: one
optional leading `+` is skipped (`-` is rejected for unsigned types: a `-`
survives into the digit scan below and fails it). -/
def strip_plus (s : List Char) : List Char :=
  match s with
  | c :: rest => if c = '+' then rest else s
  | [] => s

/-- The digit scan of `str::parse::<usize>()`: at least one decimal digit.
(Overflow is irrelevant here: every caller compares the result against 16,
and an overflowing literal would be rejected either way.) -/
def decimal_digits_value (t : List Char) : Option Nat :=
  if t ≠ [] ∧ t.all (fun c => (decimal_digit_value c).isSome) then
    some (t.foldl (fun n c => n * 10 + (decimal_digit_value c).getD 0) 0)
  else none

/-- The digit scan of `usize::from_str_radix(_, 16)`: at least one hex
digit. -/
def hex_digits_value (t : List Char) : Option Nat :=
  if t ≠ [] ∧ t.all (fun c => (hex_digit_value c).isSome) then
    some (t.foldl (fun n c => n * 16 + (hex_digit_value c).getD 0) 0)
  else none

/-- Rust `str::parse::<usize>()`: an optional leading `+`, then at least one
decimal digit. -/
def parse_usize (s : List Char) : Option Nat :=
  decimal_digits_value (strip_plus s)

/-- Rust `usize::from_str_radix(s, 16)`: an optional leading `+`, then at
least one hex digit. -/
def from_str_radix_16 (s : List Char) : Option Nat :=
  hex_digits_value (strip_plus s)

/-! ## Tokens and the negotiation state

The VT tokenizer (`edit::vt`) is not part of this repository slice; the token
shapes below are modelled from the spec's interface section: a
control-sequence (CSI) reply carrying numeric parameters and a final byte,
and an out-of-band (OSC) reply carrying a payload plus a partial-fragment
flag (`more = true` means more bytes of the same reply follow). -/

inductive Token where
  /-- A CSI reply: parameter list and final byte. -/
  | csi (params : List Nat) (final_byte : Char)
  /-- An OSC reply: payload `data`; `more` is the partial-fragment flag. -/
  | osc (data : List Char) (more : Bool)
  /-- Any other token kind (text, keys, ...): ignored by negotiation. -/
  | other
  deriving DecidableEq, Repr

/-- Index of `IndexedColor::Foreground` in the color table (variant 16 of the
`IndexedColor` enum: the 16 base colors, then Foreground, then Background, as
used by `syntax.rs` and `main.rs`). -/
def foreground_index : Nat := 16

/-- Index of `IndexedColor::Background` in the color table (variant 17). -/
def background_index : Nat := 17

/-- Modelled from the spec: `framebuffer::DEFAULT_THEME` (the `framebuffer`
module is not under `src/`).  The built-in default theme: one packed
ARGB entry per `IndexedColor` variant — the 16 base colors followed by the
Foreground and Background slots (18 entries; `main.rs` stores OSC 10/11
replies at `IndexedColor::Foreground as usize` / `Background as usize`, so
the array spans all 18 variants).  The concrete entry values are
representative. -/
def DEFAULT_THEME : List Nat :=
  [0xff0c0c0c, 0xffc50f1f, 0xff13a10e, 0xffc19c00,
   0xff0037da, 0xff881798, 0xff3a96dd, 0xffcccccc,
   0xff767676, 0xffe74856, 0xff16c60c, 0xfff9f1a5,
   0xff3b78ff, 0xffb4009e, 0xff61d6d6, 0xfff2f2f2,
   0xffeeeeee, 0xff1e1e1e]

/-- The mutable locals of `setup_terminal`'s negotiation loop. -/
structure NegotiationState where
  /-- `done`: set by the device-attributes reply (CSI final byte `c`). -/
  done : Bool
  /-- `osc_buffer`: accumulator for fragmented OSC replies. -/
  osc_buffer : List Char
  /-- `indexed_colors`: the color table being built, starts at the default theme. -/
  indexed_colors : List Nat
  /-- `color_responses`: count of successfully parsed color replies. -/
  color_responses : Nat
  /-- `ambiguous_width`: width probe result (`CoordType`, i.e. signed). -/
  ambiguous_width : Int
  deriving DecidableEq, Repr

/-- Initial values of the negotiation locals (`main.rs` lines 626-630). -/
def initial_negotiation_state : NegotiationState :=
  { done := false
    osc_buffer := []
    indexed_colors := DEFAULT_THEME
    color_responses := 0
    ambiguous_width := 1 }

/-! ## OSC reply decoding (`main.rs` lines 661-700) -/

/-- Target selection for a complete OSC reply (`main.rs` lines 661-679):
splits the payload on `;`; key `4` plus an in-range index selects that color
slot, `10`/`11` select foreground/background; returns the selected slot index
together with the next field (the color parameter), or `none` when the reply
is ignored. -/
def osc_target (data : List Char) : Option (Nat × List Char) :=
  let splits := split_terminator ';' data
  let key := splits.getD 0 []
  if key = ['4'] then
    match parse_usize (splits.getD 1 []) with
    | some val => if val < 16 then some (val, splits.getD 2 []) else none
    | none => none
  else if key = ['1', '0'] then some (foreground_index, splits.getD 1 [])
  else if key = ['1', '1'] then some (background_index, splits.getD 1 [])
  else none

/-- One iteration of the `for part in rgb_parts` loop (`main.rs` lines
685-696): a component of 2 or 4 hex digits shifts the accumulator right by a
byte and ors the (possibly 16→8-bit-reduced) sample into the top byte of the
24-bit value; any other component leaves the accumulator unchanged. -/
def fold_rgb_part (rgb : Nat) (part : List Char) : Nat :=
  if part.length = 2 ∨ part.length = 4 then
    match from_str_radix_16 part with
    | none => rgb
    | some v =>
      let v := if part.length = 4 then (v * 0xff + 0x7fff) / 0xffff else v
      (rgb >>> 8) ||| (v <<< 16)
  else rgb

/-- The accumulated RGB value of a color parameter (`main.rs` lines 681-696):
strip the 4-char `rgb:` prefix, split on `/`, take the first three components
(missing ones default to `"0"`), and fold them. -/
def osc_color_value (color_param : List Char) : Nat :=
  let comps := split_terminator '/' (color_param.drop 4)
  let rgb_parts := [comps.getD 0 ['0'], comps.getD 1 ['0'], comps.getD 2 ['0']]
  rgb_parts.foldl fold_rgb_part 0

/-- Processing of a complete (non-partial, accumulator-prefixed) OSC reply
(`main.rs` lines 661-701).  On the `continue` paths the state — including the
accumulator — is left untouched; on the success path the selected slot is
overwritten (alpha forced), the reply count incremented and the accumulator
cleared. -/
def osc_complete (st : NegotiationState) (data : List Char) : NegotiationState :=
  match osc_target data with
  | none => st
  | some (idx, color_param) =>
    if ['r', 'g', 'b', ':'].isPrefixOf color_param then
      { st with
        indexed_colors := st.indexed_colors.set idx (osc_color_value color_param ||| 0xff000000)
        color_responses := st.color_responses + 1
        osc_buffer := [] }
    else st

/-- Processing of one token of the negotiation loop (`main.rs` lines
643-703).  A partial OSC fragment is appended to the accumulator and
processing deferred; a non-partial OSC token is prefixed with the (non-empty)
accumulator — which then also holds the combined bytes, exactly as the
source's `osc_buffer.push_str(data); data = &osc_buffer` — and parsed. -/
def step_token (st : NegotiationState) (t : Token) : NegotiationState :=
  match t with
  | .csi params final_byte =>
    if final_byte = 'c' then { st with done := true }
    else if final_byte = 'R' then
      { st with ambiguous_width := (params.getD 1 0 : Int) - 1 }
    else st
  | .osc data more =>
    if more then { st with osc_buffer := st.osc_buffer ++ data }
    else
      let d := st.osc_buffer ++ data
      osc_complete
        { st with osc_buffer := if st.osc_buffer = [] then st.osc_buffer else d } d
  | .other => st

/-- The outer read loop of `setup_terminal` (`main.rs` lines 632-705): each
read yields a batch of tokens which is consumed in full (the inner token loop
does not stop early when `done` is set); a new read only happens while `done`
is false; exhaustion of the batch list models the stream closing. -/
def run_batches : NegotiationState → List (List Token) → NegotiationState
  | st, [] => st
  | st, b :: bs => if st.done then st else run_batches (b.foldl step_token st) bs

/-- The negotiation result for a given sequence of input batches. -/
def negotiate (batches : List (List Token)) : NegotiationState :=
  run_batches initial_negotiation_state batches

/-- The theme in effect after `setup_terminal` (`main.rs` lines 712-714):
`tui.setup_indexed_colors(indexed_colors)` is called — replacing the built-in
default theme — exactly when `color_responses == indexed_colors.len()`. -/
def active_theme (batches : List (List Token)) : List Nat :=
  let st := negotiate batches
  if st.color_responses = st.indexed_colors.length then st.indexed_colors
  else DEFAULT_THEME

/-- Whether `setup_terminal` triggers the wide-width reflow
(`main.rs` lines 707-710). -/
def negotiated_reflow (batches : List (List Token)) : Bool :=
  (negotiate batches).ambiguous_width = 2

/-! ## Clipboard size gating (`main.rs` lines 476-567)

`draw_handle_clipboard_change` is an immediate-mode UI function; we model the
observable per-frame outcome: which prompt (if any) is built, which control
inherits the default focus, and the resulting `done` decision / state
updates, as a function of the payload length, the session's "always send"
preference and the user's interaction with the prompt in that frame. -/

/-- `helpers::KIBI` (module not under `src/`; the usual binary kilo). -/
def KIBI : Nat := 1024

/-- `helpers::MEBI` (module not under `src/`; the usual binary mega). -/
def MEBI : Nat := 1024 * 1024

/-- `SCRATCH_ARENA_CAPACITY` on a 64-bit target (`main.rs` lines 44-45). -/
def SCRATCH_ARENA_CAPACITY : Nat := 512 * MEBI

/-- `LARGE_CLIPBOARD_THRESHOLD` (`main.rs` line 476). -/
def LARGE_CLIPBOARD_THRESHOLD : Nat := 128 * KIBI

/-- Which prompt the frame builds. -/
inductive PromptKind where
  /-- Immediate sync; no modal is built. -/
  | noPrompt
  /-- The Always / Yes / No warning modal. -/
  | choices3
  /-- The acknowledgement-only (single Ok button) modal. -/
  | ackOnly
  deriving DecidableEq, Repr

/-- Which control receives `inherit_focus` (the default-focused control). -/
inductive FocusTarget where
  | focusNone
  | focusYes
  | focusNo
  | focusOk
  deriving DecidableEq, Repr

/-- The user's interaction with the modal during the frame (`none` = no
interaction: the modal simply stays open). -/
inductive UserAction where
  /-- The Always button is activated. -/
  | clickAlways
  /-- The Yes button is activated. -/
  | clickYes
  /-- The No button is activated. -/
  | clickNo
  /-- The Ok button of the acknowledgement-only modal is activated. -/
  | clickOk
  /-- The modal is dismissed without choosing (`modal_end` returns true). -/
  | dismiss
  deriving DecidableEq, Repr

/-- The observable outcome of one `draw_handle_clipboard_change` frame. -/
structure ClipboardOutcome where
  /-- Which prompt was built this frame. -/
  prompt : PromptKind
  /-- Which control inherited the default focus. -/
  focus : FocusTarget
  /-- `state.osc_clipboard_always_send` after the frame. -/
  always_send : Bool
  /-- The `done` decision: `some true` = sync, `some false` = no sync,
  `none` = the modal stays open (no state change this frame).  In the
  immediate branch `some true` records `state.osc_clipboard_sync = true`. -/
  decision : Option Bool
  deriving DecidableEq, Repr

/-- `draw_handle_clipboard_change` (`main.rs` lines 478-567): the immediate
branch syncs when the preference is set or the payload is small; otherwise a
modal is built whose shape depends on `over_limit`, whose default focus
depends on the 10× threshold, and whose dismissal counts as No. -/
def draw_handle_clipboard_change (always_send : Bool) (data_len : Nat)
    (act : Option UserAction) : ClipboardOutcome :=
  if always_send ∨ data_len < LARGE_CLIPBOARD_THRESHOLD then
    { prompt := .noPrompt, focus := .focusNone, always_send := always_send
      decision := some true }
  else
    let over_limit := SCRATCH_ARENA_CAPACITY / 4 ≤ data_len
    if over_limit then
      { prompt := .ackOnly
        focus := .focusOk
        always_send := always_send
        decision :=
          match act with
          | some .clickOk => some true
          | some .dismiss => some false
          | _ => none }
    else
      { prompt := .choices3
        focus := if data_len < 10 * LARGE_CLIPBOARD_THRESHOLD then .focusYes else .focusNo
        always_send := always_send ∨ act = some .clickAlways
        decision :=
          match act with
          | some .clickAlways => some true
          | some .clickYes => some true
          | some .clickNo => some false
          | some .dismiss => some false
          | _ => none }

/-! ## Title updates (`main.rs` lines 177-183, 464-474, 723-737)

File names and frame output are byte buffers (`List Nat`). -/

/-- `sanitize_control_chars` (`main.rs` lines 723-737): find the first C0
control byte; if none, the text is returned unchanged (borrowed); otherwise
every byte from that offset on that is a control byte is replaced with
`_` (0x5f). -/
def sanitize_control_chars (text : List Nat) : List Nat :=
  match text.findIdx? (fun b => b < 0x20) with
  | none => text
  | some off =>
    text.take off ++ (text.drop off).map (fun b => if b < 0x20 then 0x5f else b)

/-- `write_terminal_title` (`main.rs` lines 465-474): `ESC ] 0 ;`, then — for
a non-empty name — the sanitized name and `" - "`, then `edit ESC \`. -/
def write_terminal_title (filename : List Nat) : List Nat :=
  [0x1b, 0x5d, 0x30, 0x3b]
    ++ (if filename ≠ [] then sanitize_control_chars filename ++ [0x20, 0x2d, 0x20] else [])
    ++ [0x65, 0x64, 0x69, 0x74, 0x1b, 0x5c]

/-- The per-frame title logic of `run` (`main.rs` lines 177-183): emit a
title update only when the active document's file name differs from
`state.osc_title_filename` (the name recorded at the last emission), and
record the new name.  Returns the emitted bytes (if any) and the new recorded
name. -/
def run_title_frame (osc_title_filename : List Nat) (filename : List Nat) :
    Option (List Nat) × List Nat :=
  if filename ≠ osc_title_filename then (some (write_terminal_title filename), filename)
  else (none, osc_title_filename)

/-! ## OSC 52 clipboard broadcast (`main.rs` lines 185-187, 569-586) -/

/-- Modelled from the spec: `edit::base64::encode` (the `base64` module is
not under `src/`); the spec says only "payload is base64-encoded", so this is
standard RFC 4648 base64 with `=` padding, producing ASCII bytes. -/
def base64_table : List Nat :=
  (List.range 26).map (· + 65) ++ (List.range 26).map (· + 97)
    ++ (List.range 10).map (· + 48) ++ [43, 47]

/-- One base64 output character. -/
def base64_char (i : Nat) : Nat := base64_table.getD i 0

/-- Modelled from the spec: standard base64 encoding of a byte list. -/
def base64_encode : List Nat → List Nat
  | [] => []
  | [a] => [base64_char (a / 4), base64_char (a % 4 * 16), 61, 61]
  | [a, b] => [base64_char (a / 4), base64_char (a % 4 * 16 + b / 16),
               base64_char (b % 16 * 4), 61]
  | a :: b :: c :: rest =>
    [base64_char (a / 4), base64_char (a % 4 * 16 + b / 16),
     base64_char (b % 16 * 4 + c / 64), base64_char (c % 64)] ++ base64_encode rest

/-- `write_osc_clipboard` (`main.rs` lines 570-586): when the clipboard data
is non-empty, append `ESC ] 5 2 ; c ;`, the base64 payload and `ESC \` to the
frame output; in every case clear `state.osc_clipboard_sync`.  Returns the
new frame output and the new flag value. -/
def write_osc_clipboard (data : List Nat) (output : List Nat) : List Nat × Bool :=
  (if data ≠ [] then
     output ++ ([0x1b, 0x5d, 0x35, 0x32, 0x3b, 0x63, 0x3b]
       ++ base64_encode data ++ [0x1b, 0x5c])
   else output,
   false)

/-- The per-frame clipboard step of `run` (`main.rs` lines 185-187):
`write_osc_clipboard` runs only when the `osc_clipboard_sync` flag is set. -/
def run_clipboard_frame (sync : Bool) (data : List Nat) (output : List Nat) :
    List Nat × Bool :=
  if sync then write_osc_clipboard data output else (output, sync)

/-- A full set of 16 indexed-color replies (indices 0 through 15), followed
by the device-attributes terminator. -/
def all16_indexed_batch : List Token :=
  ((List.range 16).map (fun k =>
    Token.osc (("4;" ++ toString k ++ ";rgb:12/34/56").toList) false)) ++ [.csi [] 'c']

/-- Delivery of an OSC payload split in two fragments: `A` flagged partial,
then `B` terminating. -/
def split_delivery (st : NegotiationState) (A B : List Char) : NegotiationState :=
  step_token (step_token st (.osc A true)) (.osc B false)

/-- Delivery of the concatenated payload as one non-partial token. -/
def whole_delivery (st : NegotiationState) (A B : List Char) : NegotiationState :=
  step_token st (.osc (A ++ B) false)

/-! ## Helper lemmas -/

/-- An ignored OSC reply (no recognized target) leaves the state unchanged. -/
theorem osc_complete_none (st : NegotiationState) (d : List Char)
    (h : osc_target d = none) : osc_complete st d = st := by
  unfold osc_complete
  rw [h]

/-- An OSC reply whose color field lacks the `rgb:` prefix leaves the state
unchanged. -/
theorem osc_complete_some_fail (st : NegotiationState) (d : List Char)
    (idx : Nat) (cp : List Char) (h : osc_target d = some (idx, cp))
    (hp : List.isPrefixOf ['r', 'g', 'b', ':'] cp = false) :
    osc_complete st d = st := by
  unfold osc_complete
  rw [h]
  simp [hp]

/-- A targeted, `rgb:`-prefixed OSC reply overwrites the slot, increments the
count and clears the accumulator. -/
theorem osc_complete_some_ok (st : NegotiationState) (d : List Char)
    (idx : Nat) (cp : List Char) (h : osc_target d = some (idx, cp))
    (hp : List.isPrefixOf ['r', 'g', 'b', ':'] cp = true) :
    osc_complete st d =
      { st with
        indexed_colors := st.indexed_colors.set idx (osc_color_value cp ||| 0xff000000)
        color_responses := st.color_responses + 1
        osc_buffer := [] } := by
  unfold osc_complete
  rw [h]
  simp [hp]

/-- `sanitize_control_chars` replaces exactly the C0 control bytes with `_`
and leaves every other byte in place. -/
theorem sanitize_control_chars_eq_map (text : List Nat) :
    sanitize_control_chars text = text.map (fun b => if b < 0x20 then 0x5f else b) := by
  induction text with
  | nil => rfl
  | cons b bs ih =>
    by_cases hb : b < 0x20
    · simp [sanitize_control_chars, List.findIdx?_cons, hb]
    · simp only [sanitize_control_chars, List.findIdx?_cons, decide_eq_true_eq,
        if_neg hb, List.findIdx?_start_succ, List.map_cons] at ih ⊢
      cases h : bs.findIdx? (fun x => decide (x < 0x20)) with
      | none =>
        rw [h] at ih
        simp only [Option.map_none', if_neg hb, ← ih]
      | some i =>
        rw [h] at ih
        simp only [Option.map_some', List.take_succ_cons, List.drop_succ_cons,
          List.cons_append, if_neg hb]
        exact congrArg (List.cons b) ih

/-! ## Claim theorems -/

/-- C5 (amended): every CPR reply (CSI final byte `R`) received during
negotiation sets the ambiguous-width multiplier to the reply's second
parameter minus one; in particular parameters `[1,3]` yield multiplier 2,
`[1,2]` yield 1, and `[1,1]` yield 0. -/
theorem cpr_sets_ambiguous_width (st : NegotiationState) (params : List Nat) :
    (step_token st (.csi params 'R')).ambiguous_width = (params.getD 1 0 : Int) - 1 ∧
    (step_token initial_negotiation_state (.csi [1, 3] 'R')).ambiguous_width = 2 ∧
    (step_token initial_negotiation_state (.csi [1, 2] 'R')).ambiguous_width = 1 ∧
    (step_token initial_negotiation_state (.csi [1, 1] 'R')).ambiguous_width = 0 := by
  refine ⟨?_, by decide, by decide, by decide⟩
  simp [step_token]

/-- C5 counterexample: the claim's instance "parameters `[1,1]` yield
multiplier 1" is false — the second parameter minus one is 0, and the code
stores 0, which also contradicts the claim's own general rule. -/
theorem cpr_parameters_one_one_counterexample :
    (step_token initial_negotiation_state (.csi [1, 1] 'R')).ambiguous_width = 0 ∧
    (step_token initial_negotiation_state (.csi [1, 1] 'R')).ambiguous_width ≠ 1 := by
  decide

/-- C10: on a frame where the clipboard "needs sync" flag is set but the
payload is empty, no OSC 52 sequence is appended to the frame output, yet the
flag is still cleared. -/
theorem empty_clipboard_no_broadcast (output : List Nat) :
    run_clipboard_frame true [] output = (output, false) := by
  simp [run_clipboard_frame, write_osc_clipboard]

/-- C9: a title update is emitted exactly when the active document's file
name differs from the name recorded at the last emission; the recorded name
is then the current name, so an unchanged next frame emits nothing; and the
embedded name is sanitized by replacing every C0 control byte with `_`. -/
theorem title_update_policy (osc_title_filename filename : List Nat) :
    ((run_title_frame osc_title_filename filename).1 ≠ none ↔ filename ≠ osc_title_filename) ∧
    (run_title_frame osc_title_filename filename).2 = filename ∧
    run_title_frame filename filename = (none, filename) ∧
    sanitize_control_chars filename = filename.map (fun b => if b < 0x20 then 0x5f else b) := by
  refine ⟨?_, ?_, by simp [run_title_frame], sanitize_control_chars_eq_map filename⟩ <;>
    by_cases h : filename = osc_title_filename <;> simp [run_title_frame, h]

/-- C3: the clipboard size-gating policy with `T1 = 128 KiB`,
`T2 = 10 * T1` and `T3 = SCRATCH_ARENA_CAPACITY / 4`: below `T1` (or with
the "always send" preference) the sync is immediate with no prompt; in
`[T1, T3)` the Always/Yes/No prompt is shown with default focus on Yes below
`T2` and on No at or above it; at or above `T3` an acknowledgement-only
prompt is shown whose confirmation syncs; and dismissal counts as No. -/
theorem clipboard_size_gating (data_len : Nat) (always_send : Bool)
    (act : Option UserAction) :
    ((always_send = true ∨ data_len < 128 * KIBI) →
      (draw_handle_clipboard_change always_send data_len act).prompt = .noPrompt ∧
      (draw_handle_clipboard_change always_send data_len act).decision = some true) ∧
    (always_send = false → 128 * KIBI ≤ data_len →
      data_len < SCRATCH_ARENA_CAPACITY / 4 →
      (draw_handle_clipboard_change always_send data_len act).prompt = .choices3 ∧
      (data_len < 10 * (128 * KIBI) →
        (draw_handle_clipboard_change always_send data_len act).focus = .focusYes) ∧
      (10 * (128 * KIBI) ≤ data_len →
        (draw_handle_clipboard_change always_send data_len act).focus = .focusNo)) ∧
    (always_send = false → SCRATCH_ARENA_CAPACITY / 4 ≤ data_len →
      (draw_handle_clipboard_change always_send data_len act).prompt = .ackOnly ∧
      (act = some .clickOk →
        (draw_handle_clipboard_change always_send data_len act).decision = some true)) ∧
    (always_send = false → 128 * KIBI ≤ data_len → act = some .dismiss →
      (draw_handle_clipboard_change always_send data_len act).decision = some false) := by
  refine ⟨?_, ?_, ?_, ?_⟩
  · intro h
    have hc : always_send = true ∨ data_len < LARGE_CLIPBOARD_THRESHOLD := by
      simpa only [LARGE_CLIPBOARD_THRESHOLD] using h
    unfold draw_handle_clipboard_change
    rw [if_pos hc]
    exact ⟨rfl, rfl⟩
  · intro ha hT1 hT3
    subst ha
    simp only [LARGE_CLIPBOARD_THRESHOLD, SCRATCH_ARENA_CAPACITY, KIBI, MEBI] at hT1 hT3 ⊢
    unfold draw_handle_clipboard_change
    simp only [LARGE_CLIPBOARD_THRESHOLD, SCRATCH_ARENA_CAPACITY, KIBI, MEBI]
    rw [if_neg (by simp only [Bool.false_eq_true, false_or]; omega),
      if_neg (by omega)]
    refine ⟨rfl, fun h4 => ?_, fun h4 => ?_⟩
    · simp only
      rw [if_pos (by omega)]
    · simp only
      rw [if_neg (by omega)]
  · intro ha hT3
    subst ha
    simp only [SCRATCH_ARENA_CAPACITY, KIBI, MEBI] at hT3 ⊢
    unfold draw_handle_clipboard_change
    simp only [LARGE_CLIPBOARD_THRESHOLD, SCRATCH_ARENA_CAPACITY, KIBI, MEBI]
    rw [if_neg (by simp only [Bool.false_eq_true, false_or]; omega),
      if_pos (by omega)]
    exact ⟨rfl, fun h => by rw [h]⟩
  · intro ha hT1 hact
    subst ha
    subst hact
    simp only [LARGE_CLIPBOARD_THRESHOLD, KIBI] at hT1
    unfold draw_handle_clipboard_change
    rw [if_neg (by
      simp only [Bool.false_eq_true, false_or, LARGE_CLIPBOARD_THRESHOLD, KIBI]
      omega)]
    by_cases h2 : SCRATCH_ARENA_CAPACITY / 4 ≤ data_len
    · rw [if_pos h2]
    · rw [if_neg h2]

/-- Witness for C3 at the spec's own example points: 100 KiB syncs without a
prompt, 200 KiB prompts with default focus Yes, 2 MiB prompts with default
focus No, and 130 MiB hits the acknowledgement-only prompt. -/
theorem clipboard_size_gating_witness :
    (draw_handle_clipboard_change false (100 * 1024) none).prompt = .noPrompt ∧
    (draw_handle_clipboard_change false (200 * 1024) none).prompt = .choices3 ∧
    (draw_handle_clipboard_change false (200 * 1024) none).focus = .focusYes ∧
    (draw_handle_clipboard_change false (2 * 1024 * 1024) none).focus = .focusNo ∧
    (draw_handle_clipboard_change false (130 * 1024 * 1024) none).prompt = .ackOnly ∧
    (draw_handle_clipboard_change false (130 * 1024 * 1024) (some .clickOk)).decision
      = some true ∧
    (draw_handle_clipboard_change false (200 * 1024) (some .dismiss)).decision
      = some false :=
  ⟨((clipboard_size_gating (100 * 1024) false none).1 (Or.inr (by decide))).1,
   ((clipboard_size_gating (200 * 1024) false none).2.1 rfl (by decide) (by decide)).1,
   (((clipboard_size_gating (200 * 1024) false none).2.1 rfl (by decide)
      (by decide)).2.1 (by decide)),
   (((clipboard_size_gating (2 * 1024 * 1024) false none).2.1 rfl (by decide)
      (by decide)).2.2 (by decide)),
   ((clipboard_size_gating (130 * 1024 * 1024) false none).2.2.1 rfl (by decide)).1,
   ((clipboard_size_gating (130 * 1024 * 1024) false (some .clickOk)).2.2.1 rfl
      (by decide)).2 rfl,
   (clipboard_size_gating (200 * 1024) false (some .dismiss)).2.2.2 rfl (by decide) rfl⟩

/-! ### Negotiation invariants (for C1) -/

/-- `osc_complete` never changes the length of the color table. -/
theorem osc_complete_colors_length (st : NegotiationState) (d : List Char) :
    (osc_complete st d).indexed_colors.length = st.indexed_colors.length := by
  unfold osc_complete
  cases osc_target d with
  | none => rfl
  | some p =>
    obtain ⟨idx, cp⟩ := p
    by_cases hp : List.isPrefixOf ['r', 'g', 'b', ':'] cp = true
    · simp [hp, List.length_set]
    · simp [hp]

/-- `step_token` never changes the length of the color table. -/
theorem step_token_colors_length (st : NegotiationState) (t : Token) :
    (step_token st t).indexed_colors.length = st.indexed_colors.length := by
  cases t with
  | csi params final_byte =>
    simp only [step_token]
    split_ifs <;> rfl
  | osc data more =>
    simp only [step_token]
    split_ifs <;> first | rfl | exact osc_complete_colors_length _ _
  | other => rfl

/-- A whole token batch never changes the length of the color table. -/
theorem foldl_step_colors_length (b : List Token) (st : NegotiationState) :
    (b.foldl step_token st).indexed_colors.length = st.indexed_colors.length := by
  induction b generalizing st with
  | nil => rfl
  | cons t ts ih => rw [List.foldl_cons, ih, step_token_colors_length]

/-- The negotiation loop never changes the length of the color table. -/
theorem run_batches_colors_length (bs : List (List Token)) (st : NegotiationState) :
    (run_batches st bs).indexed_colors.length = st.indexed_colors.length := by
  induction bs generalizing st with
  | nil => rfl
  | cons b bs ih =>
    unfold run_batches
    split_ifs with h
    · rfl
    · rw [ih, foldl_step_colors_length]

/-- C1 (amended): the color table spans 18 slots (16 indexed colors plus
foreground and background); the received colors replace the built-in default
theme exactly when the count of successfully parsed color replies — indexed
(OSC 4) and foreground/background (OSC 10/11) alike — equals 18; whenever
that count differs from 18 the active theme is the untouched default in
full. -/
theorem color_theme_replacement (batches : List (List Token)) :
    (negotiate batches).indexed_colors.length = 18 ∧
    ((negotiate batches).color_responses ≠ 18 → active_theme batches = DEFAULT_THEME) ∧
    ((negotiate batches).color_responses = 18 →
      active_theme batches = (negotiate batches).indexed_colors) := by
  have hlen : (negotiate batches).indexed_colors.length = 18 := by
    unfold negotiate
    rw [run_batches_colors_length]
    rfl
  refine ⟨hlen, fun h => ?_, fun h => ?_⟩
  · simp only [active_theme]
    rw [hlen, if_neg h]
  · simp only [active_theme]
    rw [hlen, if_pos h]

set_option maxRecDepth 100000 in
/-- C1 counterexample: all 16 indexed-color replies are received and parsed
(the count is 16 and every indexed slot holds the received color
`0xff563412`), yet the theme is NOT replaced: the active theme stays the
built-in default, because the code also requires the foreground and
background replies (18 in total). -/
theorem color_theme_all16_counterexample :
    (negotiate [all16_indexed_batch]).color_responses = 16 ∧
    (negotiate [all16_indexed_batch]).indexed_colors =
      List.replicate 16 0xff563412 ++ [0xffeeeeee, 0xff1e1e1e] ∧
    active_theme [all16_indexed_batch] = DEFAULT_THEME := by
  decide

/-- Witness for C1 at a concrete input: a single indexed reply (count 1 ≠ 18)
leaves the default theme active. -/
theorem color_theme_replacement_witness :
    active_theme [[Token.osc ("4;0;rgb:12/34/56").toList false]] = DEFAULT_THEME :=
  (color_theme_replacement [[Token.osc ("4;0;rgb:12/34/56").toList false]]).2.1
    (by decide)

/-! ### The OSC accumulator (C4) -/

/-- C4 (amended): processing a complete (non-partial) OSC reply either
succeeds — the reply count increments and the accumulator is cleared — or
fails to parse as a color reply, in which case the color table and count are
untouched but the accumulator KEEPS the accumulated bytes (the old fragment
bytes plus the reply's own bytes), which are then carried into later
replies. -/
theorem osc_accumulator_discipline (st : NegotiationState) (data : List Char) :
    ((step_token st (.osc data false)).osc_buffer = [] ∧
     (step_token st (.osc data false)).color_responses = st.color_responses + 1) ∨
    ((step_token st (.osc data false)).osc_buffer =
       (if st.osc_buffer = [] then [] else st.osc_buffer ++ data) ∧
     (step_token st (.osc data false)).color_responses = st.color_responses ∧
     (step_token st (.osc data false)).indexed_colors = st.indexed_colors) := by
  simp only [step_token, Bool.false_eq_true, if_false]
  cases hT : osc_target (st.osc_buffer ++ data) with
  | none =>
    right
    rw [osc_complete_none _ _ hT]
    refine ⟨?_, rfl, rfl⟩
    by_cases h : st.osc_buffer = [] <;> simp [h]
  | some p =>
    obtain ⟨idx, cp⟩ := p
    by_cases hp : List.isPrefixOf ['r', 'g', 'b', ':'] cp = true
    · left
      rw [osc_complete_some_ok _ _ _ _ hT hp]
      exact ⟨rfl, rfl⟩
    · right
      rw [osc_complete_some_fail _ _ _ _ hT (Bool.eq_false_iff.mpr hp)]
      refine ⟨?_, rfl, rfl⟩
      by_cases h : st.osc_buffer = [] <;> simp [h]

/-- C4 counterexample: a fragment `"12"` (partial) followed by the
terminating fragment `";rgb:aa/bb/cc"` completes a parse of the key-`12`
reply, which is ignored — and the accumulator is NOT cleared: it still holds
all 15 bytes, and they corrupt the next, perfectly valid indexed-color
reply, which the stale prefix turns into another ignored key-`12` reply (the
color table stays at the default). -/
theorem osc_accumulator_counterexample :
    (step_token (step_token initial_negotiation_state (.osc ("12").toList true))
        (.osc (";rgb:aa/bb/cc").toList false)).osc_buffer = ("12;rgb:aa/bb/cc").toList ∧
    (step_token (step_token (step_token initial_negotiation_state
        (.osc ("12").toList true))
        (.osc (";rgb:aa/bb/cc").toList false))
        (.osc ("4;0;rgb:ff/ff/ff").toList false)).indexed_colors = DEFAULT_THEME := by
  decide

/-! ### Malformed color fields (C6) -/

/-- C6 (amended): a reply whose key is unrecognized, whose index is out of
range, or whose color field lacks the `rgb:` prefix is silently ignored with
the whole state unchanged.  A `rgb:`-prefixed color field with malformed
channel components (digit count other than 2 or 4, or non-hex digits) is NOT
ignored: each malformed component merely contributes nothing to the
accumulated value, but the reply still overwrites the targeted slot with the
accumulated value (alpha forced) and still increments the reply count. -/
theorem malformed_color_reply_behavior :
    (∀ rgb part, from_str_radix_16 part = none → fold_rgb_part rgb part = rgb) ∧
    (∀ rgb part, part.length ≠ 2 → part.length ≠ 4 → fold_rgb_part rgb part = rgb) ∧
    (∀ st data idx cp, osc_target data = some (idx, cp) →
      List.isPrefixOf ['r', 'g', 'b', ':'] cp = true →
      (osc_complete st data).color_responses = st.color_responses + 1 ∧
      (osc_complete st data).indexed_colors =
        st.indexed_colors.set idx (osc_color_value cp ||| 0xff000000) ∧
      (osc_complete st data).done = st.done) ∧
    (∀ st data, osc_target data = none → osc_complete st data = st) ∧
    (∀ st data idx cp, osc_target data = some (idx, cp) →
      List.isPrefixOf ['r', 'g', 'b', ':'] cp = false → osc_complete st data = st) := by
  refine ⟨?_, ?_, ?_, ?_, ?_⟩
  · intro rgb part h
    unfold fold_rgb_part
    by_cases hl : part.length = 2 ∨ part.length = 4
    · rw [if_pos hl, h]
    · rw [if_neg hl]
  · intro rgb part h2 h4
    unfold fold_rgb_part
    rw [if_neg (by omega)]
  · intro st data idx cp h1 h2
    rw [osc_complete_some_ok _ _ _ _ h1 h2]
    exact ⟨rfl, rfl, rfl⟩
  · intro st data h
    exact osc_complete_none _ _ h
  · intro st data idx cp h1 h2
    exact osc_complete_some_fail _ _ _ _ h1 h2

/-- C6 counterexample: the reply `4;0;rgb:zz/zz/zz` — non-hex digits in
every channel — is not ignored: it overwrites slot 0 with `0xff000000`
(the default slot value is `0xff0c0c0c`) and increments the reply count. -/
theorem malformed_color_reply_counterexample :
    (osc_complete initial_negotiation_state ("4;0;rgb:zz/zz/zz").toList).indexed_colors.getD 0 0
      = 0xff000000 ∧
    DEFAULT_THEME.getD 0 0 = 0xff0c0c0c ∧
    (osc_complete initial_negotiation_state ("4;0;rgb:zz/zz/zz").toList).color_responses = 1 := by
  decide

/-- Witness for C6: the malformed reply `4;0;rgb:zz/zz/zz` targets slot 0
with a `rgb:`-prefixed field, so the overwrite-and-count branch applies. -/
theorem malformed_color_reply_witness :
    (osc_complete initial_negotiation_state ("4;0;rgb:zz/zz/zz").toList).color_responses =
      initial_negotiation_state.color_responses + 1 :=
  (malformed_color_reply_behavior.2.2.1 initial_negotiation_state
    (("4;0;rgb:zz/zz/zz").toList) 0 (("rgb:zz/zz/zz").toList)
    (by decide) (by decide)).1

/-! ### Fragment reassembly (C8) -/

/-- `osc_complete` reads only the payload, not the accumulator: on two states
agreeing on everything but the accumulator it produces the same colors,
count, width and done flag, and on a successful parse both accumulators end
empty. -/
theorem osc_complete_buffer_irrelevant (st1 st2 : NegotiationState) (d : List Char)
    (hc : st1.indexed_colors = st2.indexed_colors)
    (hr : st1.color_responses = st2.color_responses)
    (hw : st1.ambiguous_width = st2.ambiguous_width)
    (hd : st1.done = st2.done) :
    (osc_complete st1 d).indexed_colors = (osc_complete st2 d).indexed_colors ∧
    (osc_complete st1 d).color_responses = (osc_complete st2 d).color_responses ∧
    (osc_complete st1 d).ambiguous_width = (osc_complete st2 d).ambiguous_width ∧
    (osc_complete st1 d).done = (osc_complete st2 d).done ∧
    ((osc_complete st1 d).color_responses ≠ st1.color_responses →
      (osc_complete st1 d).osc_buffer = [] ∧ (osc_complete st2 d).osc_buffer = []) := by
  cases hT : osc_target d with
  | none =>
    rw [osc_complete_none _ _ hT, osc_complete_none _ _ hT]
    exact ⟨hc, hr, hw, hd, fun h => absurd rfl h⟩
  | some p =>
    obtain ⟨idx, cp⟩ := p
    by_cases hp : List.isPrefixOf ['r', 'g', 'b', ':'] cp = true
    · rw [osc_complete_some_ok _ _ _ _ hT hp, osc_complete_some_ok _ _ _ _ hT hp]
      exact ⟨by rw [hc], by rw [hr], hw, hd, fun _ => ⟨rfl, rfl⟩⟩
    · rw [osc_complete_some_fail _ _ _ _ hT (Bool.eq_false_iff.mpr hp),
        osc_complete_some_fail _ _ _ _ hT (Bool.eq_false_iff.mpr hp)]
      exact ⟨hc, hr, hw, hd, fun h => absurd rfl h⟩

/-- C8 (amended): starting from an empty accumulator, a payload delivered as
a partial fragment `A` followed by a terminating fragment `B` produces the
same color table, reply count, width multiplier and done flag as the
concatenated payload delivered as one non-partial token; the accumulator
states also agree whenever the payload is successfully parsed as a color
reply (both end empty) — but not in general (a failing parse leaves the
split delivery's accumulator full and the whole delivery's empty). -/
theorem fragment_reassembly (st : NegotiationState) (A B : List Char)
    (h : st.osc_buffer = []) :
    (split_delivery st A B).indexed_colors = (whole_delivery st A B).indexed_colors ∧
    (split_delivery st A B).color_responses = (whole_delivery st A B).color_responses ∧
    (split_delivery st A B).ambiguous_width = (whole_delivery st A B).ambiguous_width ∧
    (split_delivery st A B).done = (whole_delivery st A B).done ∧
    ((whole_delivery st A B).color_responses ≠ st.color_responses →
      (split_delivery st A B).osc_buffer = (whole_delivery st A B).osc_buffer) := by
  unfold split_delivery whole_delivery
  simp only [step_token, if_true, Bool.false_eq_true, if_false, h, List.nil_append]
  have main := osc_complete_buffer_irrelevant
    { st with osc_buffer := if A = [] then A else A ++ B }
    { st with osc_buffer := ([] : List Char) }
    (A ++ B) rfl rfl rfl rfl
  obtain ⟨m1, m2, m3, m4, m5⟩ := main
  refine ⟨m1, m2, m3, m4, fun hne => ?_⟩
  have hne' : (osc_complete { st with
      osc_buffer := if A = [] then A else A ++ B } (A ++ B)).color_responses
      ≠ st.color_responses := by
    rw [m2]
    exact hne
  obtain ⟨b1, b2⟩ := m5 hne'
  rw [b1, b2]

/-- Witness for C8 at a concrete split reply: `"4;0"` + `";rgb:11/22/33"`. -/
theorem fragment_reassembly_witness :
    (split_delivery initial_negotiation_state ("4;0").toList
        (";rgb:11/22/33").toList).indexed_colors =
      (whole_delivery initial_negotiation_state ("4;0").toList
        (";rgb:11/22/33").toList).indexed_colors ∧
    (split_delivery initial_negotiation_state ("4;0").toList
        (";rgb:11/22/33").toList).color_responses =
      (whole_delivery initial_negotiation_state ("4;0").toList
        (";rgb:11/22/33").toList).color_responses :=
  ⟨(fragment_reassembly initial_negotiation_state ("4;0").toList
      (";rgb:11/22/33").toList rfl).1,
   (fragment_reassembly initial_negotiation_state ("4;0").toList
      (";rgb:11/22/33").toList rfl).2.1⟩

/-- C8 counterexample: for the unparseable payload `"12;rgb:aa/bb/cc"` the
split delivery and the whole delivery do NOT produce the same accumulator
state — the split delivery keeps all the bytes, the whole delivery keeps
none. -/
theorem fragment_reassembly_counterexample :
    (split_delivery initial_negotiation_state ("12").toList
        (";rgb:aa/bb/cc").toList).osc_buffer ≠
      (whole_delivery initial_negotiation_state ("12").toList
        (";rgb:aa/bb/cc").toList).osc_buffer := by
  decide

/-! ### 16-bit channel reduction and byte order (C7) -/

/-- `splitCh` never produces the empty list of pieces. -/
theorem splitCh_ne_nil (sep : Char) (s : List Char) : splitCh sep s ≠ [] := by
  cases s with
  | nil => simp [splitCh]
  | cons x xs =>
    unfold splitCh
    split_ifs <;> simp

/-- Splitting a separator-free list yields the single piece. -/
theorem splitCh_no_sep (sep : Char) (l : List Char) (h : ∀ c ∈ l, c ≠ sep) :
    splitCh sep l = [l] := by
  induction l with
  | nil => rfl
  | cons x xs ih =>
    have hx : x ≠ sep := h x (List.mem_cons_self x xs)
    have hxs : ∀ c ∈ xs, c ≠ sep := fun c hc => h c (List.mem_cons_of_mem x hc)
    simp only [splitCh, ih hxs, if_neg hx, List.headD_cons, List.tail_cons]

/-- Splitting a list whose head part is separator-free peels that part off. -/
theorem splitCh_append (sep : Char) (l r : List Char) (h : ∀ c ∈ l, c ≠ sep) :
    splitCh sep (l ++ sep :: r) = l :: splitCh sep r := by
  induction l with
  | nil => simp [splitCh]
  | cons x xs ih =>
    have hx : x ≠ sep := h x (List.mem_cons_self x xs)
    have hxs : ∀ c ∈ xs, c ≠ sep := fun c hc => h c (List.mem_cons_of_mem x hc)
    rw [List.cons_append]
    simp only [splitCh, ih hxs, if_neg hx, List.headD_cons, List.tail_cons]

/-- `split_terminator` on exactly three separator-free components. -/
theorem split_terminator_three (pr pg pb : List Char)
    (hpr : ∀ c ∈ pr, c ≠ '/') (hpg : ∀ c ∈ pg, c ≠ '/') (hpb : ∀ c ∈ pb, c ≠ '/')
    (hnb : pb ≠ []) :
    split_terminator '/' (pr ++ '/' :: (pg ++ '/' :: pb)) = [pr, pg, pb] := by
  unfold split_terminator
  rw [splitCh_append _ _ _ hpr, splitCh_append _ _ _ hpg, splitCh_no_sep _ _ hpb]
  simp [hnb]

/-- A hex digit value is below 16. -/
theorem hex_digit_value_lt (c : Char) (d : Nat) (h : hex_digit_value c = some d) :
    d < 16 := by
  unfold hex_digit_value at h
  split_ifs at h with h1 h2 h3 <;> simp_all <;> omega

/-- Every character accepted by `hex_digit_value` differs from `/`. -/
theorem hex_digit_value_ne_slash (c : Char) (h : (hex_digit_value c).isSome = true) :
    c ≠ '/' := by
  intro hc
  subst hc
  simp [hex_digit_value] at h

/-- The hex fold is bounded by the digit count. -/
theorem hex_foldl_lt (l : List Char) (acc : Nat)
    (h : l.all (fun c => (hex_digit_value c).isSome) = true) :
    l.foldl (fun n c => n * 16 + (hex_digit_value c).getD 0) acc
      < (acc + 1) * 16 ^ l.length := by
  induction l generalizing acc with
  | nil => simp
  | cons c cs ih =>
    simp only [List.all_cons, Bool.and_eq_true] at h
    obtain ⟨hc, hcs⟩ := h
    have hd : (hex_digit_value c).getD 0 < 16 := by
      cases hv : hex_digit_value c with
      | none => simp [hv] at hc
      | some d =>
        rw [Option.getD_some]
        exact hex_digit_value_lt c d hv
    calc List.foldl (fun n c => n * 16 + (hex_digit_value c).getD 0)
          (acc * 16 + (hex_digit_value c).getD 0) cs
        < (acc * 16 + (hex_digit_value c).getD 0 + 1) * 16 ^ cs.length := ih _ hcs
      _ ≤ ((acc + 1) * 16) * 16 ^ cs.length := by
          exact Nat.mul_le_mul_right _ (by omega)
      _ = (acc + 1) * 16 ^ (c :: cs).length := by
          rw [List.length_cons, Nat.pow_succ]
          ring

/-- Stripping the sign never lengthens the string. -/
theorem strip_plus_length_le (s : List Char) : (strip_plus s).length ≤ s.length := by
  cases s with
  | nil => exact Nat.le_refl _
  | cons c rest =>
    simp only [strip_plus]
    split_ifs <;> simp

/-- Every character of the input is the sign or survives the stripping. -/
theorem mem_strip_plus (s : List Char) (c : Char) (hc : c ∈ s) :
    c = '+' ∨ c ∈ strip_plus s := by
  cases s with
  | nil => cases hc
  | cons a rest =>
    simp only [strip_plus]
    split_ifs with ha
    · subst ha
      rcases List.mem_cons.mp hc with h | h
      · exact Or.inl h
      · exact Or.inr h
    · exact Or.inr hc

/-- A successful hex digit scan is below `16 ^ length`. -/
theorem hex_digits_value_lt (t : List Char) (v : Nat)
    (h : hex_digits_value t = some v) : v < 16 ^ t.length := by
  unfold hex_digits_value at h
  split_ifs at h with hcond
  obtain ⟨hne, hall⟩ := hcond
  injection h with h
  subst h
  simpa using hex_foldl_lt t 0 hall

/-- A successfully parsed hex literal is below `16 ^ length`. -/
theorem from_str_radix_16_lt (s : List Char) (v : Nat)
    (h : from_str_radix_16 s = some v) : v < 16 ^ s.length := by
  refine lt_of_lt_of_le (hex_digits_value_lt _ _ h)
    (Nat.pow_le_pow_right (by omega) (strip_plus_length_le s))

/-- A successfully parsed hex literal contains no `/`. -/
theorem from_str_radix_16_no_slash (s : List Char) (v : Nat)
    (h : from_str_radix_16 s = some v) : ∀ c ∈ s, c ≠ '/' := by
  intro c hc
  unfold from_str_radix_16 hex_digits_value at h
  split_ifs at h with hcond
  obtain ⟨hne, hall⟩ := hcond
  rw [List.all_eq_true] at hall
  rcases mem_strip_plus s c hc with h' | h'
  · subst h'
    decide
  · exact hex_digit_value_ne_slash c (hall c h')

/-- Disjoint or is addition: oring `b * 2 ^ k` with a value below `2 ^ k`. -/
theorem lor_mul_two_pow_add (a b k : Nat) (h : a < 2 ^ k) :
    (b * 2 ^ k) ||| a = b * 2 ^ k + a := by
  rw [Nat.mul_comm b (2 ^ k)]
  exact (Nat.mul_add_lt_is_or h b).symm

/-- C7's reduction step on a 4-digit component, in isolation. -/
theorem fold_rgb_part_16bit (rgb : Nat) (part : List Char) (v : Nat)
    (h4 : part.length = 4) (hv : from_str_radix_16 part = some v) :
    fold_rgb_part rgb part = (rgb >>> 8) ||| (((v * 255 + 32767) / 65535) <<< 16) := by
  unfold fold_rgb_part
  rw [if_pos (Or.inr h4), hv]
  simp [h4]

/-- Disjoint or at the 16-bit boundary. -/
theorem lor_65536 (a b : Nat) (h : a < 65536) : (b * 65536) ||| a = b * 65536 + a := by
  have key := lor_mul_two_pow_add a b 16
  norm_num at key
  exact key h

/-- Oring the 24-bit accumulated value with the forced alpha byte. -/
theorem lor_alpha (x : Nat) (h : x < 16777216) : x ||| 0xff000000 = 0xff000000 + x := by
  rw [Nat.lor_comm, show (0xff000000 : Nat) = 255 * 2 ^ 24 by norm_num,
    lor_mul_two_pow_add x 255 24 (by norm_num; omega)]

/-- C7 (amended): for a color reply `rgb:rrrr/gggg/bbbb` with three 4-hex-digit
channel components parsing to `vr`, `vg`, `vb`, each stored 8-bit channel
equals `(v*255+32767)/65535` in exact integer arithmetic — but the channels
combine with R in the LEAST significant byte of the 24-bit value (B in the
most significant), with the alpha byte forced to `0xFF`: the stored word is
`0xFF000000 + B'*65536 + G'*256 + R'`, not big-endian R,G,B. -/
theorem channel_reduction_and_byte_order (pr pg pb : List Char) (vr vg vb : Nat)
    (hlr : pr.length = 4) (hlg : pg.length = 4) (hlb : pb.length = 4)
    (hvr : from_str_radix_16 pr = some vr) (hvg : from_str_radix_16 pg = some vg)
    (hvb : from_str_radix_16 pb = some vb) :
    (∀ rgb : Nat, fold_rgb_part rgb pr
        = (rgb >>> 8) ||| (((vr * 255 + 32767) / 65535) <<< 16)) ∧
    osc_color_value ('r' :: 'g' :: 'b' :: ':' :: (pr ++ '/' :: (pg ++ '/' :: pb)))
        ||| 0xff000000
      = 0xff000000 + ((vb * 255 + 32767) / 65535) * 65536
          + ((vg * 255 + 32767) / 65535) * 256 + ((vr * 255 + 32767) / 65535) := by
  refine ⟨fun rgb => fold_rgb_part_16bit rgb pr vr hlr hvr, ?_⟩
  have hvr' : vr < 65536 := by
    have key := from_str_radix_16_lt pr vr hvr
    rw [hlr] at key
    norm_num at key
    exact key
  have hvg' : vg < 65536 := by
    have key := from_str_radix_16_lt pg vg hvg
    rw [hlg] at key
    norm_num at key
    exact key
  have hvb' : vb < 65536 := by
    have key := from_str_radix_16_lt pb vb hvb
    rw [hlb] at key
    norm_num at key
    exact key
  have hnb : pb ≠ [] := by
    intro hcon
    rw [hcon] at hlb
    simp at hlb
  unfold osc_color_value
  rw [show ('r' :: 'g' :: 'b' :: ':' :: (pr ++ '/' :: (pg ++ '/' :: pb))).drop 4
      = pr ++ '/' :: (pg ++ '/' :: pb) from rfl,
    split_terminator_three pr pg pb
      (from_str_radix_16_no_slash pr vr hvr) (from_str_radix_16_no_slash pg vg hvg)
      (from_str_radix_16_no_slash pb vb hvb) hnb]
  simp only [List.getD_cons_zero, List.getD_cons_succ, List.foldl_cons, List.foldl_nil]
  rw [fold_rgb_part_16bit _ pr vr hlr hvr, fold_rgb_part_16bit _ pg vg hlg hvg,
    fold_rgb_part_16bit _ pb vb hlb hvb]
  have hbr : (vr * 255 + 32767) / 65535 ≤ 255 := by omega
  have hbg : (vg * 255 + 32767) / 65535 ≤ 255 := by omega
  have hbb : (vb * 255 + 32767) / 65535 ≤ 255 := by omega
  set Ar := (vr * 255 + 32767) / 65535 with hAr
  set Ag := (vg * 255 + 32767) / 65535 with hAg
  set Ab := (vb * 255 + 32767) / 65535 with hAb
  have e1 : (0 : Nat) >>> 8 ||| (Ar <<< 16) = Ar * 65536 := by
    rw [Nat.zero_shiftRight, Nat.zero_or, Nat.shiftLeft_eq]
  have e2 : (Ar * 65536) >>> 8 ||| (Ag <<< 16) = Ag * 65536 + Ar * 256 := by
    rw [Nat.shiftRight_eq_div_pow, Nat.shiftLeft_eq,
      show ((2 : Nat) ^ 8) = 256 by norm_num, show ((2 : Nat) ^ 16) = 65536 by norm_num,
      show Ar * 65536 / 256 = Ar * 256 by omega, Nat.lor_comm,
      lor_65536 _ _ (by omega)]
  have e3 : (Ag * 65536 + Ar * 256) >>> 8 ||| (Ab <<< 16)
      = Ab * 65536 + (Ag * 256 + Ar * 256 / 256) := by
    rw [Nat.shiftRight_eq_div_pow, Nat.shiftLeft_eq,
      show ((2 : Nat) ^ 8) = 256 by norm_num, show ((2 : Nat) ^ 16) = 65536 by norm_num,
      show (Ag * 65536 + Ar * 256) / 256 = Ag * 256 + Ar * 256 / 256 by omega,
      Nat.lor_comm, lor_65536 _ _ (by omega)]
  rw [e1, e2, e3, lor_alpha _ (by omega)]
  omega

/-- Witness for C7 at the pure-red reply `rgb:ffff/8000/0000`: the stored
word is `0xFF000000 + 0*65536 + 128*256 + 255 = 0xFF0080FF`. -/
theorem channel_reduction_witness :
    osc_color_value ('r' :: 'g' :: 'b' :: ':' ::
        (("ffff").toList ++ '/' :: (("8000").toList ++ '/' :: ("0000").toList)))
        ||| 0xff000000
      = 0xff000000 + ((0 * 255 + 32767) / 65535) * 65536
          + ((0x8000 * 255 + 32767) / 65535) * 256 + ((0xffff * 255 + 32767) / 65535) :=
  (channel_reduction_and_byte_order ("ffff").toList ("8000").toList ("0000").toList
    0xffff 0x8000 0 (by decide) (by decide) (by decide)
    (by decide) (by decide) (by decide)).2

/-- C7 counterexample: for the pure-red reply `4;0;rgb:ffff/0000/0000` the
claimed big-endian R,G,B combination would store `0xFFFF0000`; the code
stores `0xFF0000FF` (red in the LOW byte). -/
theorem channel_byte_order_counterexample :
    (osc_complete initial_negotiation_state
        ("4;0;rgb:ffff/0000/0000").toList).indexed_colors.getD 0 0 = 0xff0000ff ∧
    (0xff0000ff : Nat) ≠ 0xffff0000 := by
  decide

end Edit
